import Mathlib

/-!
Verification of the notary document-analysis front-end (cartorio-teste-final):
a shallow embedding of the Gemini service wrappers (performOCR,
analyzeLegalText, performDeepResearch), the Workspace research controller
(handleResearch) and the upload surface (handleDrop / handleFileChange),
with theorems settling the specification claims.

Strings are modelled as lists of characters; one call to the external AI
endpoint is modelled by an explicit outcome value: either the transport or
API layer throws, or a response value is returned.  JSON.parse is passed in
as an explicit partial parse function, since the embedding does not model a
JS JSON value type.
-/

namespace Cartorio

/-- JS strings, modelled as lists of characters. -/
abbrev Str := List Char

/-- Outcome of one call to the external AI endpoint: either the transport or
API layer throws, or a response value is returned. -/
inductive CallOutcome (α : Type) : Type
  | throws : CallOutcome α
  | returns (response : α) : CallOutcome α
  deriving DecidableEq

/-- The error taxonomy of services/geminiService.ts: each of the three
wrappers rethrows one fixed error from its catch block. -/
inductive GeminiError : Type
  | ocrError        -- thrown as "Falha ao realizar OCR no documento."
  | analysisError   -- thrown as "Falha na análise jurídica do texto."
  | researchError   -- thrown as "Falha na pesquisa aprofundada."
  deriving DecidableEq

/-- types.ts RiskFactor severity values. -/
inductive Severity : Type
  | LOW
  | MEDIUM
  | HIGH
  deriving DecidableEq

/-- types.ts RiskFactor, as it exists at runtime after the unvalidated
JSON.parse cast: every field may in fact be absent (undefined). -/
structure RiskFactor where
  severity : Option Severity
  description : Option Str
  location : Option Str
  deriving DecidableEq

/-- types.ts ExtractedData, as it exists at runtime after
JSON.parse(jsonText) as ExtractedData: the cast performs no validation, so
every declared field may in fact be absent (undefined), modelled by Option. -/
structure ExtractedData where
  rawText : Option Str
  summary : Option Str
  documentType : Option Str
  parties : Option (List Str)
  dates : Option (List Str)
  missingRequirements : Option (List Str)
  riskFactors : Option (List RiskFactor)
  deriving DecidableEq

/-- A generateContent response as consumed by performOCR and analyzeLegalText:
only its text field is read; absent text is modelled as none. -/
structure GenResponse where
  text : Option Str
  deriving DecidableEq

/-- JS falsiness of a possibly-absent string: undefined or the empty string. -/
def falsyText : Option Str → Bool
  | none => true
  | some s => s.isEmpty

/-- services/geminiService.ts performOCR: returns response.text || "" on a
returned response, and maps any thrown error to the fixed OCR error; an
absent or empty response text yields the empty transcription, not an error. -/
def performOCR (call : CallOutcome GenResponse) : Except GeminiError Str :=
  match call with
  | .throws => .error .ocrError
  | .returns resp => .ok (resp.text.getD [])

/-- services/geminiService.ts analyzeLegalText: reads response.text, throws on
a falsy (absent or empty) body, JSON-parses it (a parse failure also lands in
the catch block), overwrites the parsed rawText field with the full input
text, and returns; every throw is mapped to the fixed analysis error. -/
def analyzeLegalText (text : Str) (parse : Str → Option ExtractedData)
    (call : CallOutcome GenResponse) : Except GeminiError ExtractedData :=
  match call with
  | .throws => .error .analysisError
  | .returns resp =>
    match resp.text with
    | none => .error .analysisError
    | some jsonText =>
      if jsonText.isEmpty then .error .analysisError
      else
        match parse jsonText with
        | none => .error .analysisError
        | some data => .ok { data with rawText := some text }

/-- The fixed character budget applied to the text embedded in the analysis
prompt: text.substring(0, 40000) in the service source. -/
def ANALYSIS_CHAR_BUDGET : Nat := 40000

/-- The portion of the input text that analyzeLegalText embeds into the prompt
sent to the external call: a prefix of at most ANALYSIS_CHAR_BUDGET
characters, the remainder silently discarded. -/
def sentAnalysisText (text : Str) : Str := text.take ANALYSIS_CHAR_BUDGET

/-- The web payload of a grounding chunk; title and uri may each be absent. -/
structure WebInfo where
  title : Option Str
  uri : Option Str
  deriving DecidableEq

/-- One grounding chunk from response metadata; its web field may be absent. -/
structure GroundingChunk where
  web : Option WebInfo
  deriving DecidableEq

/-- A cited source as built by performDeepResearch: title and uri are copied
from the chunk's web object without any presence check. -/
structure SourceRef where
  title : Option Str
  uri : Option Str
  deriving DecidableEq

/-- A research response: its text and its grounding chunks
(candidates?.[0]?.groundingMetadata?.groundingChunks), either possibly
absent. -/
structure ResearchResponse where
  text : Option Str
  groundingChunks : Option (List GroundingChunk)
  deriving DecidableEq

/-- types.ts ResearchResult. -/
structure ResearchResult where
  query : Str
  findings : Str
  sources : List SourceRef
  deriving DecidableEq

/-- The fallback findings text substituted when the response text is falsy. -/
def fallbackFindings : Str := "Não foi possível realizar a pesquisa.".toList

/-- Source extraction in performDeepResearch: map each chunk carrying a
(truthy) web object to its title and uri, drop the rest; an absent chunk list
yields the empty list. -/
def extractSources : Option (List GroundingChunk) → List SourceRef
  | none => []
  | some cs => cs.filterMap fun c => c.web.map fun w => ⟨w.title, w.uri⟩

/-- services/geminiService.ts performDeepResearch: on a returned response it
always builds a ResearchResult, substituting a fixed placeholder when the
response text is falsy; only a thrown call is mapped to the research error. -/
def performDeepResearch (query context : Str)
    (call : CallOutcome ResearchResponse) : Except GeminiError ResearchResult :=
  match call with
  | .throws => .error .researchError
  | .returns resp =>
    .ok { query := query
          findings := if falsyText resp.text then fallbackFindings else resp.text.getD []
          sources := extractSources resp.groundingChunks }

/-- types.ts AnalysisStatus. -/
inductive AnalysisStatus : Type
  | IDLE
  | PROCESSING_OCR
  | PROCESSING_ANALYSIS
  | PROCESSING_RESEARCH
  | COMPLETED
  | ERROR
  deriving DecidableEq

/-- types.ts DocumentContext. -/
structure DocumentContext where
  id : Str
  fileName : Str
  fileType : Str
  imageBase64 : Str
  extractedData : Option ExtractedData
  research : Option (List ResearchResult)
  createdAt : Nat
  deriving DecidableEq

/-- The Workspace component state touched by the research controller. -/
structure WorkspaceState where
  docContext : Option DocumentContext
  status : AnalysisStatus
  researchQuery : Str
  statusMessage : Str
  deriving DecidableEq

/-- JS !query.trim(): true when the query is empty after trimming, that is
when every character is whitespace. -/
def isBlank (s : Str) : Bool := s.all Char.isWhitespace

/-- The guard at the top of Workspace.tsx handleResearch:
if (!docContext?.extractedData || !researchQuery.trim()) return.  It consults
only the record and the query, never the status value. -/
def researchGuardPasses (s : WorkspaceState) : Bool :=
  (match s.docContext with
   | none => false
   | some doc => doc.extractedData.isSome) && !(isBlank s.researchQuery)

/-- The research sequence of the current record: prev.research || []. -/
def researchOf (s : WorkspaceState) : List ResearchResult :=
  match s.docContext with
  | none => []
  | some doc => doc.research.getD []

/-- Workspace.tsx handleResearch, run to completion for one external-call
outcome: if the guard passes it invokes performDeepResearch on the query and
the record's rawText; on success it prepends the result to the record's
research sequence and clears the query, on failure it only logs; the finally
block sets the status to COMPLETED and clears the status message in both
cases.  Returns the final state and whether an external call was attempted. -/
def handleResearch (s : WorkspaceState) (call : CallOutcome ResearchResponse) :
    WorkspaceState × Bool :=
  if researchGuardPasses s then
    let ctx := ((s.docContext.bind DocumentContext.extractedData).bind ExtractedData.rawText).getD []
    match performDeepResearch s.researchQuery ctx call with
    | .ok result =>
      ({ s with
          docContext := s.docContext.map fun doc =>
            { doc with research := some (result :: doc.research.getD []) },
          researchQuery := [],
          status := .COMPLETED,
          statusMessage := [] }, true)
    | .error _ =>
      ({ s with status := .COMPLETED, statusMessage := [] }, true)
  else (s, false)

/-- The ResearchResult that a returned (non-throwing) research call builds for
a given state and response. -/
def entryFor (s : WorkspaceState) (resp : ResearchResponse) : ResearchResult :=
  { query := s.researchQuery
    findings := if falsyText resp.text then fallbackFindings else resp.text.getD []
    sources := extractSources resp.groundingChunks }

/-- UploadArea.tsx handleDrop: checks e.dataTransfer.files && length > 0 and
forwards files[0] to onFileSelected; the result is the forwarded file, none
when no pipeline invocation occurs. -/
def handleDrop {α : Type} (files : Option (List α)) : Option α :=
  match files with
  | none => none
  | some fs => if fs.length > 0 then fs.head? else none

/-- UploadArea.tsx handleFileChange: checks e.target.files && length > 0 and
forwards files[0] to onFileSelected; the result is the forwarded file, none
when no pipeline invocation occurs. -/
def handleFileChange {α : Type} (files : Option (List α)) : Option α :=
  match files with
  | none => none
  | some fs => if fs.length > 0 then fs.head? else none

/-- Modelled from the claim's words, for comparison with extractSources: keep
exactly the citations whose web object carries both a title and a uri (a
resolvable pair), dropping every other citation. -/
def extractSourcesClaimed : Option (List GroundingChunk) → List SourceRef
  | none => []
  | some cs => cs.filterMap fun c =>
      match c.web with
      | some ⟨some t, some u⟩ => some ⟨some t, some u⟩
      | _ => none

/-- A concrete analysis payload whose array fields, in particular
missingRequirements, were omitted by the external response. -/
def omittedPayload : ExtractedData :=
  { rawText := none
    summary := some "Resumo".toList
    documentType := none
    parties := none
    dates := none
    missingRequirements := none
    riskFactors := none }

/-- A concrete research entry already present on a record. -/
def sampleEntry : ResearchResult := { query := ['q'], findings := ['f'], sources := [] }

/-- A concrete record that has completed analysis and holds one research
entry. -/
def sampleDoc : DocumentContext :=
  { id := ['1']
    fileName := ['d']
    fileType := ['i']
    imageBase64 := ['b']
    extractedData := some { omittedPayload with rawText := some ['t'] }
    research := some [sampleEntry]
    createdAt := 0 }

/-- The controller state immediately after handleResearch has set the status
for a prior in-flight research call and suspended on the await: the analysis
result is present and the query box holds a new non-blank query. -/
def inFlightState : WorkspaceState :=
  { docContext := some sampleDoc
    status := .PROCESSING_RESEARCH
    researchQuery := ['q', '2']
    statusMessage := "Consultando Jurisprudência e Legislação...".toList }

/-- A Ready controller state: analysis completed, one prior research entry,
a non-blank query typed into the box. -/
def readyState : WorkspaceState :=
  { docContext := some sampleDoc
    status := .COMPLETED
    researchQuery := ['q']
    statusMessage := [] }

/-- An Idle controller state with no record at all. -/
def idleState : WorkspaceState :=
  { docContext := none
    status := .IDLE
    researchQuery := []
    statusMessage := [] }

/-- A text one character longer than the analysis character budget. -/
def longText : Str := List.replicate 40001 'a'

/-!  Theorems settling the claims.  -/

/-- C1: whenever analyzeLegalText succeeds, the returned record's rawText is
exactly the full untruncated input text, regardless of what rawText value the
parsed payload echoed. -/
theorem C1_analyze_rawText_overwritten
    (text : Str) (parse : Str → Option ExtractedData)
    (call : CallOutcome GenResponse) (data : ExtractedData)
    (h : analyzeLegalText text parse call = .ok data) :
    data.rawText = some text := by
  unfold analyzeLegalText at h
  split at h
  · exact absurd h (by simp)
  · split at h
    · exact absurd h (by simp)
    · split at h
      · exact absurd h (by simp)
      · split at h
        · exact absurd h (by simp)
        · rw [← Except.ok.inj h]

/-- C1 witness: a concrete successful analysis whose parsed payload omitted
rawText still surfaces the full input text. -/
theorem C1_witness :
    analyzeLegalText ['t'] (fun _ => some omittedPayload)
      (.returns ⟨some ['j']⟩) = .ok { omittedPayload with rawText := some ['t'] } ∧
    ({ omittedPayload with rawText := some ['t'] } : ExtractedData).rawText = some ['t'] :=
  ⟨rfl, C1_analyze_rawText_overwritten ['t'] (fun _ => some omittedPayload)
    (.returns ⟨some ['j']⟩) { omittedPayload with rawText := some ['t'] } rfl⟩

/-- C2 counterexample: in the state reached while a prior research call is in
flight (Status = PROCESSING_RESEARCH, analysis present, non-blank query),
invoking handleResearch again is not a no-op: an external call is attempted
and, on a returned response, the research sequence grows by one. -/
theorem C2_cex :
    inFlightState.status ≠ AnalysisStatus.COMPLETED ∧
    (handleResearch inFlightState (.returns ⟨some ['r'], none⟩)).2 = true ∧
    (researchOf (handleResearch inFlightState (.returns ⟨some ['r'], none⟩)).1).length
      = (researchOf inFlightState).length + 1 := by
  refine ⟨by decide, by decide, by decide⟩

/-- C2 (amended): invoking submitResearchQuery is a no-op exactly when the
record lacks an analysis result or the query is blank after trimming; the
guard never consults the status, so any state passing it — including one with
a prior research call in flight — attempts the external call. -/
theorem C2_research_guard
    (s : WorkspaceState) (call : CallOutcome ResearchResponse) :
    (handleResearch s call).2 = researchGuardPasses s ∧
    (researchGuardPasses s = false → handleResearch s call = (s, false)) := by
  unfold handleResearch
  by_cases h : researchGuardPasses s
  · constructor
    · rw [if_pos h, h]
      cases call <;> rfl
    · intro hf; rw [h] at hf; exact absurd hf (by decide)
  · have hf : researchGuardPasses s = false := by
      cases hx : researchGuardPasses s
      · rfl
      · exact absurd hx h
    rw [if_neg h]
    exact ⟨hf.symm, fun _ => rfl⟩

/-- C2 witness: in the Idle state (no record) the guard fails and the
invocation is a no-op. -/
theorem C2_witness :
    (handleResearch idleState .throws).2 = researchGuardPasses idleState ∧
    handleResearch idleState .throws = (idleState, false) :=
  ⟨(C2_research_guard idleState .throws).1,
   (C2_research_guard idleState .throws).2 (by decide)⟩

/-- C3 counterexample: a returned response with empty text does not make
performDeepResearch fail; it yields a valid entry whose findings are the
fixed placeholder string, refuting that an empty response text is an error. -/
theorem C3_cex :
    performDeepResearch ['q'] ['c'] (.returns ⟨some [], none⟩)
      = .ok { query := ['q'], findings := fallbackFindings, sources := [] } := rfl

/-- C3 (amended): performDeepResearch fails (with the research error) exactly
when the transport throws; every returned response, even one with absent or
empty text and no grounding metadata, yields a valid ResearchResult. -/
theorem C3_research_error_iff
    (q ctx : Str) (call : CallOutcome ResearchResponse) :
    (∃ e, performDeepResearch q ctx call = .error e) ↔ call = .throws := by
  cases call with
  | throws => exact ⟨fun _ => rfl, fun _ => ⟨.researchError, rfl⟩⟩
  | returns resp =>
    constructor
    · rintro ⟨e, he⟩
      exact absurd he (by simp [performDeepResearch])
    · intro h; exact absurd h (by simp)

/-- C4 counterexample: a returned response carrying empty text does not make
performOCR fail; it returns the empty transcription, refuting that empty text
is a transcription error. -/
theorem C4_cex : performOCR (.returns ⟨some []⟩) = .ok [] := rfl

/-- C4 (amended): performOCR fails (with the OCR error) exactly when the
external call throws; a returned response yields response.text || "", so an
absent or empty text becomes the empty transcription. -/
theorem C4_ocr_error_iff (call : CallOutcome GenResponse) (resp : GenResponse) :
    ((∃ e, performOCR call = .error e) ↔ call = .throws) ∧
    performOCR (.returns resp) = .ok (resp.text.getD []) := by
  refine ⟨?_, rfl⟩
  cases call with
  | throws => exact ⟨fun _ => rfl, fun _ => ⟨.ocrError, rfl⟩⟩
  | returns r =>
    constructor
    · rintro ⟨e, he⟩
      exact absurd he (by simp [performOCR])
    · intro h; exact absurd h (by simp)

/-- C5 counterexample: a payload that parses successfully but omits the
missing-requirements array is surfaced with the field still absent
(undefined), not defaulted to the empty sequence. -/
theorem C5_cex :
    analyzeLegalText ['t'] (fun _ => some omittedPayload) (.returns ⟨some ['j']⟩)
      = .ok { omittedPayload with rawText := some ['t'] } ∧
    ({ omittedPayload with rawText := some ['t'] } : ExtractedData).missingRequirements
      = none ∧
    ({ omittedPayload with rawText := some ['t'] } : ExtractedData).missingRequirements
      ≠ some [] := ⟨rfl, rfl, by decide⟩

/-- C5 (amended): on a successful parse analyzeLegalText returns the parsed
payload with only rawText overwritten; absent array fields, such as an
omitted missingRequirements, are preserved as absent, never defaulted to the
empty sequence. -/
theorem C5_no_defaulting
    (text jsonText : Str) (p : ExtractedData) (h : jsonText ≠ []) :
    analyzeLegalText text (fun _ => some p) (.returns ⟨some jsonText⟩)
      = .ok { p with rawText := some text } := by
  cases jsonText with
  | nil => exact absurd rfl h
  | cons a as => rfl

/-- C5 witness: the amended behaviour at a concrete payload omitting the
missing-requirements array. -/
theorem C5_witness :
    analyzeLegalText ['u'] (fun _ => some omittedPayload) (.returns ⟨some ['j']⟩)
      = .ok { omittedPayload with rawText := some ['u'] } :=
  C5_no_defaulting ['u'] ['j'] omittedPayload (by decide)

/-- C6: the text analyzeLegalText embeds into the prompt is exactly a prefix
of the input of at most ANALYSIS_CHAR_BUDGET characters, the budget is the
single constant 40000 (within the 30k–45k range), and any input longer than
the budget is never sent in full. -/
theorem C6_analysis_truncates_to_budget (t : Str) :
    sentAnalysisText t <+: t ∧
    (sentAnalysisText t).length = min ANALYSIS_CHAR_BUDGET t.length ∧
    30000 ≤ ANALYSIS_CHAR_BUDGET ∧ ANALYSIS_CHAR_BUDGET ≤ 45000 ∧
    (ANALYSIS_CHAR_BUDGET < t.length → sentAnalysisText t ≠ t) := by
  have hmin : (sentAnalysisText t).length = min ANALYSIS_CHAR_BUDGET t.length :=
    List.length_take _ _
  refine ⟨List.take_prefix _ _, hmin, by decide, by decide, ?_⟩
  intro hlen heq
  rw [heq] at hmin
  simp only [ANALYSIS_CHAR_BUDGET] at hmin hlen
  omega

/-- C6 witness: a 40001-character text exceeds the budget and is not sent in
full. -/
theorem C6_witness :
    ANALYSIS_CHAR_BUDGET < longText.length ∧ sentAnalysisText longText ≠ longText := by
  have h : ANALYSIS_CHAR_BUDGET < longText.length := by
    rw [longText, List.length_replicate]; decide
  exact ⟨h, (C6_analysis_truncates_to_budget longText).2.2.2.2 h⟩

/-- C7: a research invocation from the Ready (COMPLETED) state whose external
call throws leaves the status at COMPLETED, never ERROR, and leaves the
record's research sequence unchanged. -/
theorem C7_failed_research_returns_ready
    (s : WorkspaceState) (h : s.status = .COMPLETED) :
    (handleResearch s .throws).1.status = .COMPLETED ∧
    researchOf (handleResearch s .throws).1 = researchOf s := by
  unfold handleResearch
  by_cases hg : researchGuardPasses s
  · rw [if_pos hg]
    exact ⟨rfl, rfl⟩
  · rw [if_neg hg]
    exact ⟨h, rfl⟩

/-- C7 witness: the throwing research call at a concrete Ready state. -/
theorem C7_witness :
    (handleResearch readyState .throws).1.status = .COMPLETED ∧
    researchOf (handleResearch readyState .throws).1 = researchOf readyState :=
  C7_failed_research_returns_ready readyState rfl

/-- The guard, restated through projections: the record must hold an analysis
result and the query must be non-blank. -/
theorem researchGuardPasses_eq (s : WorkspaceState) :
    researchGuardPasses s
      = ((s.docContext.bind DocumentContext.extractedData).isSome
          && !(isBlank s.researchQuery)) := by
  unfold researchGuardPasses
  cases hd : s.docContext with
  | none => rfl
  | some doc => rfl

/-- A passing guard forces a present record. -/
theorem guard_docContext_isSome
    (s : WorkspaceState) (h : researchGuardPasses s = true) :
    s.docContext.isSome := by
  cases hd : s.docContext with
  | none =>
    rw [researchGuardPasses_eq, hd] at h
    simp at h
  | some doc => rfl

/-- A successful research call with a passing guard prepends exactly the
built entry to the record's research sequence. -/
theorem handleResearch_success_researchOf
    (s : WorkspaceState) (r : ResearchResponse) (doc : DocumentContext)
    (hd : s.docContext = some doc) (h : researchGuardPasses s = true) :
    researchOf (handleResearch s (.returns r)).1 = entryFor s r :: researchOf s := by
  unfold handleResearch
  rw [if_pos h]
  unfold researchOf
  rw [hd]
  rfl

/-- A successful research call leaves the record's analysis result in place. -/
theorem handleResearch_success_extractedData
    (s : WorkspaceState) (r : ResearchResponse) (doc : DocumentContext)
    (hd : s.docContext = some doc) (h : researchGuardPasses s = true) :
    (handleResearch s (.returns r)).1.docContext.bind DocumentContext.extractedData
      = doc.extractedData := by
  unfold handleResearch
  rw [if_pos h, hd]
  rfl

/-- C8: a successful research query prepends exactly one entry, preserving
the existing entries in order, and after submitting queries Q1 then Q2 the
sequence is the Q2 entry, then the Q1 entry, in front of the prior entries. -/
theorem C8_research_prepends
    (s : WorkspaceState) (r1 r2 : ResearchResponse) (q2 : Str)
    (h1 : researchGuardPasses s = true) (h2 : isBlank q2 = false) :
    researchOf (handleResearch s (.returns r1)).1
      = entryFor s r1 :: researchOf s ∧
    researchOf (handleResearch
        { (handleResearch s (.returns r1)).1 with researchQuery := q2 }
        (.returns r2)).1
      = entryFor { (handleResearch s (.returns r1)).1 with researchQuery := q2 } r2
          :: entryFor s r1 :: researchOf s := by
  cases hd : s.docContext with
  | none =>
    have hds := guard_docContext_isSome s h1
    rw [hd] at hds; exact absurd hds (by decide)
  | some doc =>
    have step1 := handleResearch_success_researchOf s r1 doc hd h1
    refine ⟨step1, ?_⟩
    have hga : doc.extractedData.isSome = true := by
      rw [researchGuardPasses_eq, hd] at h1
      simp only [Bool.and_eq_true] at h1
      exact h1.1
    have hext := handleResearch_success_extractedData s r1 doc hd h1
    have hg2 : researchGuardPasses
        { (handleResearch s (.returns r1)).1 with researchQuery := q2 } = true := by
      rw [researchGuardPasses_eq]
      show (((handleResearch s (.returns r1)).1.docContext.bind
          DocumentContext.extractedData).isSome && !(isBlank q2)) = true
      rw [hext, hga, h2]
      rfl
    obtain ⟨doc1, hd1⟩ :
        ∃ d, ({ (handleResearch s (.returns r1)).1 with researchQuery := q2 }
          : WorkspaceState).docContext = some d := by
      have hds1 := guard_docContext_isSome _ hg2
      cases hx : ({ (handleResearch s (.returns r1)).1 with researchQuery := q2 }
          : WorkspaceState).docContext with
      | none => rw [hx] at hds1; exact absurd hds1 (by decide)
      | some d => exact ⟨d, rfl⟩
    have step2 := handleResearch_success_researchOf
      { (handleResearch s (.returns r1)).1 with researchQuery := q2 } r2 doc1 hd1 hg2
    rw [step2]
    have hsame : researchOf
        ({ (handleResearch s (.returns r1)).1 with researchQuery := q2 }
          : WorkspaceState)
        = researchOf (handleResearch s (.returns r1)).1 := rfl
    rw [hsame, step1]

/-- C8 witness: two concrete successful queries from a Ready state produce
the two entries in reverse-chronological order in front of the prior entry. -/
theorem C8_witness :
    researchOf (handleResearch readyState (.returns ⟨some ['r'], none⟩)).1
      = entryFor readyState ⟨some ['r'], none⟩ :: researchOf readyState ∧
    researchOf (handleResearch
        { (handleResearch readyState (.returns ⟨some ['r'], none⟩)).1 with
            researchQuery := ['w'] }
        (.returns ⟨none, none⟩)).1
      = entryFor { (handleResearch readyState (.returns ⟨some ['r'], none⟩)).1 with
            researchQuery := ['w'] } ⟨none, none⟩
          :: entryFor readyState ⟨some ['r'], none⟩ :: researchOf readyState :=
  C8_research_prepends readyState ⟨some ['r'], none⟩ ⟨none, none⟩ ['w']
    (by decide) (by decide)

/-- C9 counterexample: a citation whose web object lacks both title and uri
is kept by extractSources as a source with absent fields, while the claimed
extraction (resolvable title/URI pairs only) would drop it. -/
theorem C9_cex :
    extractSources (some [⟨some ⟨none, none⟩⟩]) = [⟨none, none⟩] ∧
    extractSourcesClaimed (some [⟨some ⟨none, none⟩⟩]) = [] ∧
    extractSources (some [⟨some ⟨none, none⟩⟩])
      ≠ extractSourcesClaimed (some [⟨some ⟨none, none⟩⟩]) :=
  ⟨rfl, rfl, by decide⟩

/-- C9 (amended): the sources list contains, in order, one entry per citation
carrying a web object, its title and uri copied verbatim even when absent;
only citations with no web object at all are filtered out, and absent chunk
metadata yields no sources. -/
theorem C9_sources_web_presence_only (cs : List GroundingChunk) :
    extractSources (some cs)
      = (cs.filterMap GroundingChunk.web).map (fun w => ⟨w.title, w.uri⟩) ∧
    extractSources none = [] := by
  refine ⟨?_, rfl⟩
  show (cs.filterMap fun c => c.web.map fun w => (⟨w.title, w.uri⟩ : SourceRef))
      = (cs.filterMap GroundingChunk.web).map fun w => (⟨w.title, w.uri⟩ : SourceRef)
  rw [List.map_filterMap]

/-- C10: for every non-empty dropped or picked file list exactly the first
file is forwarded to the pipeline and the remaining files are ignored; an
empty or absent list triggers no pipeline invocation. -/
theorem C10_first_file_only {α : Type} (f : α) (rest : List α) :
    handleDrop (some (f :: rest)) = some f ∧
    handleDrop (some ([] : List α)) = none ∧
    handleDrop (none : Option (List α)) = none ∧
    handleFileChange (some (f :: rest)) = some f ∧
    handleFileChange (some ([] : List α)) = none ∧
    handleFileChange (none : Option (List α)) = none := by
  refine ⟨?_, rfl, rfl, ?_, rfl, rfl⟩ <;>
    · show (if (f :: rest).length > 0 then (f :: rest).head? else none) = some f
      rw [if_pos (by simp)]
      rfl

end Cartorio
